import Mathlib

/-!
Shallow embedding of src/PythonWordPressContentMigration.py (class WordPressMigrator).
Network interaction is modelled by an explicit environment `WPM.Env` giving the outcome
of each HTTP request as surfaced by the configured requests session; every method of the
class becomes a Lean function returning its value together with the list of observable
events (requests issued, delays slept, warnings logged) it produces, in order.
-/

namespace WPM

/-- Occurrence test on character lists: the needle occurs contiguously somewhere. -/
def containsSeq (needle : List Char) : List Char → Bool
  | [] => needle.isEmpty
  | c :: cs => needle.isPrefixOf (c :: cs) || containsSeq needle cs

/-- Python substring test: needle in haystack, for the nonempty needles the program
uses. -/
def pyIn (needle haystack : String) : Bool :=
  containsSeq needle.data haystack.data

/-- Suffix after the last occurrence of sep, the whole list when sep does not occur:
the semantics of the Python idiom s.split(sep)[-1] for a nonempty sep. -/
def afterLastSep (sep : List Char) (l : List Char) : List Char :=
  match (l.tails.filter (fun t => sep.isPrefixOf t)).getLast? with
  | none => l
  | some t => t.drop sep.length

/-- Python s.split(sep)[-1] for a nonempty sep, on strings. -/
def splitLast (s sep : String) : String :=
  String.mk (afterLastSep sep.data s.data)

/-- Python s.lower(): characterwise lowercasing. -/
def pyLower (s : String) : String :=
  String.mk (s.data.map Char.toLower)

/-- Python s.endswith(suffix). -/
def pyEndsWith (s suffix : String) : Bool :=
  suffix.data.isSuffixOf s.data

/-- Embedded featured-media data of a raw post: the value of the wp:featuredmedia key
when present, a list of entries, each carrying an optional source_url value
(none models a missing key or a null value, as in the Python dicts). -/
structure Embedded where
  featuredmedia : Option (List (Option String))
  deriving Repr, DecidableEq

/-- Raw WordPress post object, restricted to the fields the program reads
(title.rendered, content.rendered, slug, excerpt.rendered, categories, tags, meta,
date, modified, _embedded). Optional fields model keys read with .get defaults. -/
structure Post where
  id : Nat
  titleRendered : String
  contentRendered : String
  slug : String
  excerptRendered : Option String
  categories : List Nat
  tags : List Nat
  meta : List (String × String)
  date : Option String
  modified : Option String
  embedded : Option Embedded
  deriving Repr, DecidableEq

/-- Payload built by create_post (src lines 95-106) and posted to the destination. -/
structure NewPost where
  title : String
  content : String
  status : String
  slug : String
  excerpt : String
  categories : List Nat
  tags : List Nat
  meta : List (String × String)
  date : Option String
  modified : Option String
  deriving Repr, DecidableEq

/-- Parsed sitemap document as seen through ElementTree in get_sitemap_urls:
either a sitemapindex (root tag contains sitemapindex) or a regular urlset,
each with its list of loc entries. -/
inductive SitemapDoc where
  | index (locs : List String)
  | urlset (locs : List String)
  deriving Repr, DecidableEq

/-- All loc entries of a document, as collected by findall on loc descendants. -/
def SitemapDoc.allLocs : SitemapDoc → List String
  | .index ls => ls
  | .urlset ls => ls

/-- Observable events of a run: requests issued, delays slept, messages logged. -/
inductive Event where
  | httpGet (url : String)
  | resolveUrl (url : String)
  | apiEnum
  | apiPageRequest (page perPage : Nat)
  | createReq (slug : String)
  | mediaDownload (url : String)
  | mediaUpload (filename contentType : String)
  | linkMedia (postId mediaId : Nat)
  | sleep (seconds : Nat)
  | warn (msg : String)
  | logError (msg : String)
  | fetchSitemap (url : String)
  deriving Repr, DecidableEq

/-- Network oracle: the outcome of each request the program can issue, as surfaced by
the retrying session (an error value models a raised exception, including
raise_for_status failures and exhausted retries). -/
structure Env where
  source_url : String
  probe : String → Except Unit Nat
  topDoc : String → Except Unit SitemapDoc
  childDoc : String → Except Unit SitemapDoc
  slugQuery : String → Except Unit (Nat × List Post)
  fetchPost : String → Except Unit Post
  createResp : NewPost → Except Unit Nat
  mediaResp : String → Except Unit (List Nat)
  uploadResp : String → Except Unit Nat
  linkResp : Nat → Nat → Except Unit Unit
  pageResp : Nat → Except Unit (Nat × List Post)

/-- Fixed extension table of get_content_type (src lines 169-176). -/
def content_types : List (String × String) :=
  [("jpg", "image/jpeg"), ("jpeg", "image/jpeg"), ("png", "image/png"),
   ("gif", "image/gif"), ("webp", "image/webp"), ("pdf", "application/pdf")]

/-- get_content_type (src lines 166-177): lowercase the filename, take the substring
after the last dot (the whole name when there is no dot), look it up in the fixed
table, defaulting to application/octet-stream. -/
def get_content_type (filename : String) : String :=
  let ext := splitLast (pyLower filename) "."
  (content_types.lookup ext).getD "application/octet-stream"

/-- Retry configuration of the shared session (src lines 34-38):
total=5, backoff_factor=0.5 (stored in milliseconds), status_forcelist. -/
structure RetryConfig where
  total : Nat
  backoff_factor_ms : Nat
  status_forcelist : List Nat
  deriving Repr, DecidableEq

/-- The configuration installed on the session at src lines 34-40. -/
def migratorRetryConfig : RetryConfig :=
  { total := 5, backoff_factor_ms := 500, status_forcelist := [500, 502, 503, 504] }

/-- Modelled from the spec: backoff delay before the k-th retry, base delay doubling
per attempt (0.5s, 1s, 2s, 4s, 8s, ...) capped at 120 seconds; in milliseconds.
The Retry machinery itself lives in the urllib3 library, outside src. -/
def backoffDelayMs (cfg : RetryConfig) (retryNumber : Nat) : Nat :=
  min 120000 (cfg.backoff_factor_ms * 2 ^ (retryNumber - 1))

/-- Modelled from the spec: one logical request through the retrying session.
The list gives the status the server answers each successive attempt; `used` counts
retries already spent. Statuses in the forcelist are retried while budget remains
(sleeping the backoff delay before each retry) and surface as an error once the
budget is exhausted; any other status is returned at once with no retry. Returns
the surfaced outcome and the list of backoff delays slept, in order. -/
def sessionSend (cfg : RetryConfig) : List Nat → Nat → Except Unit Nat × List Nat
  | [], _ => (.error (), [])
  | s :: rest, used =>
    if s ∈ cfg.status_forcelist then
      if used < cfg.total then
        let r := sessionSend cfg rest (used + 1)
        (r.1, backoffDelayMs cfg (used + 1) :: r.2)
      else (.error (), [])
    else (.ok s, [])

/-- get_media (src lines 127-135): download the media file; a raised error
(network or raise_for_status) is caught, logged as a warning, and yields None. -/
def get_media (env : Env) (media_url : String) : Option (List Nat) × List Event :=
  match env.mediaResp media_url with
  | .ok content => (some content, [.mediaDownload media_url])
  | .error _ => (none, [.mediaDownload media_url, .warn "Could not download media"])

/-- Python truthiness of the media content value: None and empty bytes are falsy. -/
def truthyBytes : Option (List Nat) → Bool
  | some (_ :: _) => true
  | _ => false

/-- upload_media (src lines 137-164): falsy content raises ValueError before any
request is issued; otherwise post the bytes with the content type derived by
get_content_type. Any raised error is logged and re-raised (result none). -/
def upload_media (env : Env) (media_content : Option (List Nat)) (filename : String) :
    Option Nat × List Event :=
  if truthyBytes media_content then
    match env.uploadResp filename with
    | .ok media_id => (some media_id, [.mediaUpload filename (get_content_type filename)])
    | .error _ =>
      (none, [.mediaUpload filename (get_content_type filename), .logError "Error uploading media"])
  else (none, [.logError "Error uploading media"])

/-- set_featured_image (src lines 179-197): patch the featured_media field of the
destination post; a raised error is caught, logged as a warning, and yields None. -/
def set_featured_image (env : Env) (post_id media_id : Nat) : Option Unit × List Event :=
  match env.linkResp post_id media_id with
  | .ok _ => (some (), [.linkMedia post_id media_id])
  | .error _ => (none, [.linkMedia post_id media_id, .warn "Could not set featured image"])

/-- The effective handle_featured_image: the second definition in the class
(src lines 371-386), which in Python shadows the earlier one at lines 199-222.
Reading source_url on a missing or null value raises (KeyError or AttributeError on
split), caught by the blanket except which logs a warning; a download failure yields
None which makes upload_media raise ValueError, also caught with a warning. -/
def handle_featured_image (env : Env) (post : Post) (new_post_id : Nat) : List Event :=
  match post.embedded with
  | none => []
  | some emb =>
    match emb.featuredmedia with
    | none => []
    | some media_list =>
      match media_list with
      | [] => [.warn "Could not migrate featured image"]
      | media_info :: _ =>
        match media_info with
        | none => [.warn "Could not migrate featured image"]
        | some media_url =>
          let filename := splitLast media_url "/"
          let dl := get_media env media_url
          let up := upload_media env dl.1 filename
          match up.1 with
          | none => dl.2 ++ up.2 ++ [.warn "Could not migrate featured image"]
          | some media_id => dl.2 ++ up.2 ++ (set_featured_image env new_post_id media_id).2

/-- The shadowed first definition of handle_featured_image (src lines 199-222), the
safe variant: it reads source_url with .get, returns silently on a falsy value, and
guards the upload and the link behind truthiness checks. Dead code at runtime, since
the later definition of the same name replaces it in the class namespace. -/
def handle_featured_image_shadowed (env : Env) (post : Post) (new_post_id : Nat) :
    List Event :=
  match post.embedded with
  | none => []
  | some emb =>
    match emb.featuredmedia with
    | none => []
    | some media_list =>
      match media_list with
      | [] => [.warn "Could not migrate featured image"]
      | media_info :: _ =>
        match media_info with
        | none => []
        | some media_url =>
          if media_url = "" then []
          else
            let filename := splitLast media_url "/"
            let dl := get_media env media_url
            if truthyBytes dl.1 then
              let up := upload_media env dl.1 filename
              match up.1 with
              | none => dl.2 ++ up.2 ++ [.warn "Could not migrate featured image"]
              | some media_id => dl.2 ++ up.2 ++ (set_featured_image env new_post_id media_id).2
            else dl.2

/-- Field mapping of create_post (src lines 95-106): title.rendered, content.rendered,
forced publish status, slug, excerpt.rendered defaulting to the empty string,
categories, tags, meta, date, modified. -/
def newPostPayload (post_data : Post) : NewPost :=
  { title := post_data.titleRendered
    content := post_data.contentRendered
    status := "publish"
    slug := post_data.slug
    excerpt := post_data.excerptRendered.getD ""
    categories := post_data.categories
    tags := post_data.tags
    meta := post_data.meta
    date := post_data.date
    modified := post_data.modified }

/-- create_post (src lines 89-126): post the mapped payload to the destination;
a non-success response or network error is logged and re-raised (result none),
a success returns the id of the created record. -/
def create_post (env : Env) (post_data : Post) : Option Nat × List Event :=
  let new_post := newPostPayload post_data
  match env.createResp new_post with
  | .ok id => (some id, [.createReq new_post.slug])
  | .error _ => (none, [.createReq new_post.slug, .logError "Error creating post"])

/-- Source posts endpoint used by get_post_by_url and the paginated enumerator. -/
def posts_endpoint (env : Env) : String := env.source_url ++ "/wp-json/wp/v2/posts"

/-- get_post_by_url (src lines 41-69): a url containing the p query pattern yields the
id directly from the split; otherwise the slug (second-to-last path segment for urls
ending in a slash, else the last) is queried, and a 200 answer with a nonempty,
nonzero-id list yields the id. A truthy id is then fetched with embeds; any raised
error is caught with a warning and yields None, as does a falsy id. -/
def get_post_by_url (env : Env) (url : String) : Option Post × List Event :=
  if pyIn "/?p=" url then
    let post_id := splitLast url "/?p="
    if post_id = "" then (none, [.resolveUrl url])
    else
      match env.fetchPost post_id with
      | .ok post =>
        (some post, [.resolveUrl url, .httpGet (posts_endpoint env ++ "/" ++ post_id)])
      | .error _ =>
        (none, [.resolveUrl url, .httpGet (posts_endpoint env ++ "/" ++ post_id),
                .warn "Could not fetch post"])
  else
    let slug := if pyEndsWith url "/" then String.mk (afterLastSep ['/'] url.data.dropLast)
               else splitLast url "/"
    match env.slugQuery slug with
    | .error _ => (none, [.resolveUrl url, .httpGet (posts_endpoint env),
                          .warn "Could not fetch post"])
    | .ok (status, posts) =>
      let pid : Option String :=
        if status = 200 then
          match posts with
          | [] => none
          | p :: _ => if p.id = 0 then none else some (toString p.id)
        else none
      match pid with
      | none => (none, [.resolveUrl url, .httpGet (posts_endpoint env)])
      | some post_id =>
        match env.fetchPost post_id with
        | .ok post =>
          (some post, [.resolveUrl url, .httpGet (posts_endpoint env),
                       .httpGet (posts_endpoint env ++ "/" ++ post_id)])
        | .error _ =>
          (none, [.resolveUrl url, .httpGet (posts_endpoint env),
                  .httpGet (posts_endpoint env ++ "/" ++ post_id), .warn "Could not fetch post"])

/-- Set-insert used to model the Python set of urls: add the element unless present. -/
def insertNew (l : List String) (x : String) : List String :=
  if x ∈ l then l else l ++ [x]

/-- urls.update(xs): insert every element of xs into the accumulated set. -/
def updateSet (l : List String) (xs : List String) : List String :=
  xs.foldl insertNew l

/-- Fixed ordered probe list of get_all_sitemaps (src lines 73-78). -/
def potential_sitemaps : List String :=
  ["/sitemap.xml", "/wp-sitemap.xml", "/post-sitemap.xml", "/wp-sitemap-posts-post-1.xml"]

/-- get_all_sitemaps (src lines 70-88): probe each well-known path in order and keep
the full urls answering status 200; any raised error skips that path. -/
def get_all_sitemaps (env : Env) : List String :=
  potential_sitemaps.foldl
    (fun acc sitemap =>
      match env.probe (env.source_url ++ sitemap) with
      | .ok status => if status = 200 then acc ++ [env.source_url ++ sitemap] else acc
      | .error _ => acc)
    []

/-- Inner loop of get_sitemap_urls over the children of a sitemapindex
(src lines 241-248): children whose url contains post (lowercased) are fetched and
their loc entries added to the set; a raised fetch or parse error propagates to the
outer handler, aborting the remaining children of this document but keeping what was
already accumulated. The Bool reports whether the loop was aborted. -/
def processChildren (env : Env) : List String → List String → List String × List Event × Bool
  | urls, [] => (urls, [], false)
  | urls, child :: rest =>
    if pyIn "post" (pyLower child) then
      match env.childDoc child with
      | .error _ => (urls, [.fetchSitemap child], true)
      | .ok doc =>
        let r := processChildren env (updateSet urls doc.allLocs) rest
        (r.1, .fetchSitemap child :: r.2.1, r.2.2)
    else processChildren env urls rest

/-- Per-document body of get_sitemap_urls (src lines 233-258): fetch and parse the
document; a sitemapindex recurses into its post-like children, a urlset adds its loc
entries directly; any raised error is caught with a warning, keeping the urls
accumulated so far, and processing continues with the next document. -/
def processSitemap (env : Env) (urls : List String) (sitemap_url : String) :
    List String × List Event :=
  match env.topDoc sitemap_url with
  | .error _ => (urls, [.fetchSitemap sitemap_url, .warn "Could not process sitemap"])
  | .ok (.index locs) =>
    let r := processChildren env urls locs
    (r.1, .fetchSitemap sitemap_url :: r.2.1 ++
          if r.2.2 then [.warn "Could not process sitemap"] else [])
  | .ok (.urlset locs) => (updateSet urls locs, [.fetchSitemap sitemap_url])

/-- Content-like url filter of get_sitemap_urls (src line 261). -/
def isPostUrl (url : String) : Bool :=
  pyIn "/posts/" url || pyIn "/?p=" url || pyIn "/blog/" url

/-- Loop of get_sitemap_urls over the probed sitemap urls (src lines 232-258),
threading the accumulated url set and the event trace. -/
def sitemapFold (env : Env) (acc : List String × List Event) (sus : List String) :
    List String × List Event :=
  sus.foldl (fun acc su =>
    let p := processSitemap env acc.1 su
    (p.1, acc.2 ++ p.2)) acc

/-- get_sitemap_urls (src lines 223-262), continued: probe for sitemaps, return empty
at once (with a warning) when none answers, otherwise fold every sitemap document
into one deduplicated set and keep only the content-like urls. -/
def get_sitemap_urls (env : Env) : List String × List Event :=
  if get_all_sitemaps env = [] then ([], [.warn "No sitemaps found"])
  else
    ((sitemapFold env ([], []) (get_all_sitemaps env)).1.filter isPostUrl,
     (sitemapFold env ([], []) (get_all_sitemaps env)).2)

/-- Loop body of get_all_posts_via_api (src lines 270-298), with fuel bounding the
number of iterations (the Python loop runs until a stop condition). Status 400 and an
empty page stop enumeration normally; any raised error (network, or raise_for_status
on another error status) is caught with a warning and stops it; a successful nonempty
page is accumulated in order, followed by a one second sleep before the next request. -/
def apiLoop (env : Env) : Nat → Nat → List Post × List Event
  | 0, _ => ([], [])
  | fuel + 1, page =>
    match env.pageResp page with
    | .error _ => ([], [.apiPageRequest page 100, .warn "Error fetching page"])
    | .ok (status, posts) =>
      if status = 400 then ([], [.apiPageRequest page 100])
      else if 400 ≤ status then ([], [.apiPageRequest page 100, .warn "Error fetching page"])
      else if posts = [] then ([], [.apiPageRequest page 100])
      else
        let r := apiLoop env fuel (page + 1)
        (posts ++ r.1, .apiPageRequest page 100 :: .sleep 1 :: r.2)

/-- get_all_posts_via_api (src lines 264-300): pages are requested starting at 1 with
fixed page size 100; the apiEnum event marks the invocation of the enumerator. -/
def get_all_posts_via_api (env : Env) (fuel : Nat) : List Post × List Event :=
  let r := apiLoop env fuel 1
  (r.1, .apiEnum :: r.2)

/-- Per-item result recorded by the migration loop. -/
inductive ItemOutcome where
  | migrated (id : Nat)
  | failed
  | skipped
  deriving Repr, DecidableEq

/-- Loop body of the API branch of migrate_content (src lines 358-369): create the
post, then run the effective featured-image handler on the new id, then sleep one
second; a raised create error is caught by the per-item except, which logs and
continues with the next item. -/
def migrate_api_item (env : Env) (post : Post) : ItemOutcome × List Event :=
  let c := create_post env post
  match c.1 with
  | none => (.failed, c.2 ++ [.logError "Error migrating post"])
  | some pid => (.migrated pid, c.2 ++ handle_featured_image env post pid ++ [.sleep 1])

/-- Loop body of the sitemap branch of migrate_content (src lines 323-340): resolve
the url first; a falsy result skips the item with a message; otherwise create the
post, run the effective featured-image handler on the new id, and sleep one second;
a raised create error is caught by the per-item except, which logs and continues. -/
def migrate_sitemap_item (env : Env) (url : String) : ItemOutcome × List Event :=
  let r := get_post_by_url env url
  match r.1 with
  | none => (.skipped, r.2 ++ [.warn "Skipping, could not fetch content"])
  | some post =>
    let c := create_post env post
    match c.1 with
    | none => (.failed, r.2 ++ c.2 ++ [.logError "Error migrating post"])
    | some pid =>
      (.migrated pid, r.2 ++ c.2 ++ handle_featured_image env post pid ++ [.sleep 1])

/-- migrate_content (src lines 302-369): read the sitemaps first; a nonempty url list
is processed item by item in sitemap mode; otherwise the paginated enumerator is
invoked and its items (when any) are processed in API mode. The fuel bounds the
pagination loop. Returns the full ordered event trace of the run. -/
def migrate_content (env : Env) (fuel : Nat) : List Event :=
  if (get_sitemap_urls env).1 ≠ [] then
    (get_sitemap_urls env).2 ++
      (get_sitemap_urls env).1.flatMap (fun u => (migrate_sitemap_item env u).2)
  else
    if (get_all_posts_via_api env fuel).1 = [] then
      (get_sitemap_urls env).2 ++ (get_all_posts_via_api env fuel).2
    else
      (get_sitemap_urls env).2 ++ (get_all_posts_via_api env fuel).2 ++
        (get_all_posts_via_api env fuel).1.flatMap (fun p => (migrate_api_item env p).2)

/-- Event classifier: the invocation marker of the paginated enumerator. -/
def isApiEnum : Event → Bool
  | .apiEnum => true
  | _ => false

/-- Event classifier: media download, upload, and link requests. -/
def isMediaOp : Event → Bool
  | .mediaDownload _ => true
  | .mediaUpload _ _ => true
  | .linkMedia _ _ => true
  | _ => false

/-- Event classifier: media link requests only. -/
def isLink : Event → Bool
  | .linkMedia _ _ => true
  | _ => false

/-- Projection extracting the url of a resolution call event. -/
def resolveTarget : Event → Option String
  | .resolveUrl u => some u
  | _ => none

/-- Environment in which every request raises. -/
def noEnv : Env :=
  { source_url := "http://src"
    probe := fun _ => .error ()
    topDoc := fun _ => .error ()
    childDoc := fun _ => .error ()
    slugQuery := fun _ => .error ()
    fetchPost := fun _ => .error ()
    createResp := fun _ => .error ()
    mediaResp := fun _ => .error ()
    uploadResp := fun _ => .error ()
    linkResp := fun _ _ => .error ()
    pageResp := fun _ => .error () }

/-- Minimal post with a given id and no featured media. -/
def samplePost (i : Nat) : Post :=
  { id := i, titleRendered := "", contentRendered := "", slug := "", excerptRendered := none,
    categories := [], tags := [], meta := [], date := none, modified := none, embedded := none }

/-- Post whose embedded featured-media entry exists but lacks a source url value. -/
def postMissingUrl : Post :=
  { samplePost 1 with slug := "s", embedded := some { featuredmedia := some [none] } }

/-- Environment answering the page sequence of the C6 scenario:
page 1 has 100 items, page 2 has 100 more, page 3 is empty. -/
def threePagesEnv : Env :=
  { noEnv with
    pageResp := fun p =>
      if p = 1 then .ok (200, (List.range 100).map samplePost)
      else if p = 2 then .ok (200, (List.range 100).map (fun i => samplePost (100 + i)))
      else .ok (200, []) }

/-- Environment answering one nonempty page and then status 400 (out of range). -/
def stop400Env : Env :=
  { noEnv with
    pageResp := fun p => if p = 1 then .ok (200, [samplePost 0]) else .ok (400, []) }

/-- Environment for the parametric C8 scenario: three index documents are probed
successfully; the first parses as a urlset with locs L1, the second fails to fetch or
parse, the third parses as a urlset with locs L2. -/
def mkTwoDocEnv (L1 L2 : List String) : Env :=
  { noEnv with
    probe := fun u =>
      if u = "http://src/sitemap.xml" ∨ u = "http://src/wp-sitemap.xml"
         ∨ u = "http://src/post-sitemap.xml" then .ok 200
      else .ok 404
    topDoc := fun u =>
      if u = "http://src/sitemap.xml" then .ok (.urlset L1)
      else if u = "http://src/post-sitemap.xml" then .ok (.urlset L2)
      else .error () }

/-- Environment answering one good page and raising on the second. -/
def errPageEnv : Env :=
  { noEnv with
    pageResp := fun p => if p = 1 then .ok (200, [samplePost 0]) else .error () }

/-- Source url of the embedded featured-media entry a post carries, when any:
the value read by the featured-image handlers. -/
def mediaUrlOf (post : Post) : Option String :=
  match post.embedded with
  | some emb =>
    match emb.featuredmedia with
    | some (mi :: _) => mi
    | _ => none
  | none => none

/-- Events that are neither the enumerator marker nor a resolution call. -/
def nonMarker : Event → Bool
  | .apiEnum => false
  | .resolveUrl _ => false
  | _ => true

/-- Events that are not media download, upload, or link requests. -/
def nonMedia : Event → Bool
  | .mediaDownload _ => false
  | .mediaUpload _ _ => false
  | .linkMedia _ _ => false
  | _ => true

/-- Environment performing the whole happy path of one item transfer. -/
def linkEnv : Env :=
  { noEnv with
    createResp := fun _ => .ok 42
    mediaResp := fun _ => .ok [1, 2, 3]
    uploadResp := fun _ => .ok 77
    linkResp := fun _ _ => .ok () }

/-- Environment where creation succeeds and everything else raises. -/
def createOkEnv : Env :=
  { noEnv with createResp := fun _ => .ok 42 }

/-- Post carrying an embedded featured-media entry with a source url. -/
def postWithMedia : Post :=
  { samplePost 1 with
    slug := "s"
    embedded := some { featuredmedia := some [some "http://a/img.png"] } }

/-- When no tail of the list starts with the separator, afterLastSep is the identity. -/
theorem afterLastSep_no_occurrence (sep l : List Char)
    (h : ∀ t ∈ l.tails, sep.isPrefixOf t = false) : afterLastSep sep l = l := by
  unfold afterLastSep
  have : l.tails.filter (fun t => sep.isPrefixOf t) = [] := by
    rw [List.filter_eq_nil_iff]
    intro t ht
    simp [h t ht]
  simp [this]

/-- A single-character needle that does not occur is not a member. -/
theorem not_containsSeq_not_mem (c : Char) (l : List Char)
    (h : containsSeq [c] l = false) : c ∉ l := by
  induction l with
  | nil => simp
  | cons a as ih =>
    simp only [containsSeq, Bool.or_eq_false_iff] at h
    have h1 : (c == a) = false := by simpa [List.isPrefixOf] using h.1
    intro hmem
    rcases List.mem_cons.mp hmem with rfl | hm
    · simp at h1
    · exact ih h.2 hm

/-- A list not containing a character has no tail starting with that character. -/
theorem not_containsSeq_no_tail_match (c : Char) (l : List Char)
    (h : containsSeq [c] l = false) : ∀ t ∈ l.tails, [c].isPrefixOf t = false := by
  intro t ht
  by_contra hc
  have hpre : [c] <+: t := List.isPrefixOf_iff_prefix.mp (by simpa using hc)
  have hsuf : t <:+ l := (List.mem_tails t l).mp ht
  exact not_containsSeq_not_mem c l h (hsuf.subset (hpre.subset (by simp)))

/-- C9: get_content_type lowercases the filename, takes the substring after the last
dot (the whole name when there is no dot), maps it through the fixed six-entry table,
and defaults to application/octet-stream for every other extension; in particular a
file literally named png with no extension is assigned image/png. -/
theorem C9_content_type_table :
    (∀ f : String,
      get_content_type f =
        (let e := splitLast (pyLower f) "."
         if e = "jpg" then "image/jpeg"
         else if e = "jpeg" then "image/jpeg"
         else if e = "png" then "image/png"
         else if e = "gif" then "image/gif"
         else if e = "webp" then "image/webp"
         else if e = "pdf" then "application/pdf"
         else "application/octet-stream"))
    ∧ (∀ f : String, containsSeq ['.'] (pyLower f).data = false →
        get_content_type f =
          (content_types.lookup (pyLower f)).getD "application/octet-stream")
    ∧ get_content_type "png" = "image/png"
    ∧ get_content_type "a.jpg" = "image/jpeg"
    ∧ get_content_type "a.jpeg" = "image/jpeg"
    ∧ get_content_type "PHOTO.PNG" = "image/png"
    ∧ get_content_type "a.gif" = "image/gif"
    ∧ get_content_type "a.webp" = "image/webp"
    ∧ get_content_type "a.pdf" = "application/pdf"
    ∧ get_content_type "archive.tar.gz" = "application/octet-stream"
    ∧ get_content_type "document" = "application/octet-stream" := by
  refine ⟨?_, ?_, by decide, by decide, by decide, by decide, by decide,
    by decide, by decide, by decide, by decide⟩
  · intro f
    simp only [get_content_type, content_types, List.lookup]
    repeat' split <;> simp_all
  · intro f h
    have hext : splitLast (pyLower f) "." = pyLower f := by
      have h2 : afterLastSep ['.'] (List.map Char.toLower f.data) = List.map Char.toLower f.data := by
        have h3 := afterLastSep_no_occurrence ['.'] (pyLower f).data
          (not_containsSeq_no_tail_match '.' (pyLower f).data h)
        simpa [pyLower] using h3
      simp [splitLast, pyLower, h2]
    simp [get_content_type, hext]

/-- Witness for C9: the file literally named png has no dot, and the dotless clause
applied to it yields the table value image/png. -/
theorem C9_content_type_table_witness :
    containsSeq ['.'] (pyLower "png").data = false
    ∧ get_content_type "png" =
        (content_types.lookup (pyLower "png")).getD "application/octet-stream" :=
  ⟨by decide, C9_content_type_table.2.1 "png" (by decide)⟩

/-- C5: with the configuration of src lines 34-40, statuses 500, 502, 503, 504 are
retried with exponentially increasing backoff delays up to a budget of five retries
and surface as an error once the budget is exhausted, while any other status (for
example 404) is surfaced immediately with zero retries; a request answered 503 three
times then 200 succeeds after three backoff delays of increasing length. -/
theorem C5_transport_retry :
    (∀ rest : List Nat, sessionSend migratorRetryConfig (404 :: rest) 0 = (.ok 404, []))
    ∧ sessionSend migratorRetryConfig [503, 503, 503, 200] 0 = (.ok 200, [500, 1000, 2000])
    ∧ sessionSend migratorRetryConfig [500, 502, 503, 504, 500, 503] 0 =
        (.error (), [500, 1000, 2000, 4000, 8000])
    ∧ (∀ responses used,
        ((sessionSend migratorRetryConfig responses used).2).length ≤
          migratorRetryConfig.total - used) := by
  refine ⟨fun rest => rfl, rfl, rfl, ?_⟩
  intro responses
  induction responses with
  | nil => intro used; simp [sessionSend]
  | cons s rest ih =>
    intro used
    simp only [sessionSend]
    split
    · split
      · have := ih (used + 1)
        simp only [migratorRetryConfig] at *
        simp
        omega
      · simp
    · simp

/-- C6: the paginated enumerator requests pages starting at 1 with fixed page size
100; given pages of 100, 100, and 0 items it returns exactly those 200 items in API
order using exactly three page requests with a one second sleep between requests one
and two and between two and three, and a page answered 400 ends enumeration normally
(no warning) keeping everything accumulated so far. -/
theorem C6_pagination :
    (get_all_posts_via_api threePagesEnv 5).1 = (List.range 200).map samplePost
    ∧ (get_all_posts_via_api threePagesEnv 5).1.length = 200
    ∧ (get_all_posts_via_api threePagesEnv 5).2 =
        [.apiEnum, .apiPageRequest 1 100, .sleep 1, .apiPageRequest 2 100, .sleep 1,
         .apiPageRequest 3 100]
    ∧ get_all_posts_via_api stop400Env 5 =
        ([samplePost 0], [.apiEnum, .apiPageRequest 1 100, .sleep 1, .apiPageRequest 2 100]) :=
  ⟨rfl, rfl, rfl, rfl⟩

/-- C10: upload_media called with None or empty media content raises ValueError
before issuing any request to the destination media endpoint: the result is a raised
error and the only event is the logged error, with no mediaUpload request. -/
theorem C10_upload_requires_content :
    ∀ (env : Env) (filename : String),
      upload_media env none filename = (none, [.logError "Error uploading media"])
      ∧ upload_media env (some []) filename = (none, [.logError "Error uploading media"]) :=
  fun _ _ => ⟨rfl, rfl⟩

/-- C4: the claim adopts the safe null-checking variant as the effective handler, but
the effective handler is the second definition, which shadows the safe one: on a post
whose featured-media entry lacks a source url value it logs a featured-image warning
(instead of returning silently after a null check), while the shadowed safe variant
returns with no event at all; neither performs any media operation. This holds in
every environment, showing the divergence is independent of the network. -/
theorem C4_effective_handler_is_unsafe :
    ∀ (env : Env) (pid : Nat),
      handle_featured_image env postMissingUrl pid = [.warn "Could not migrate featured image"]
      ∧ handle_featured_image_shadowed env postMissingUrl pid = []
      ∧ (handle_featured_image env postMissingUrl pid).filter isMediaOp = [] :=
  fun _ _ => ⟨rfl, rfl, rfl⟩

/-- Membership in the set after a single insert. -/
theorem mem_insertNew (l : List String) (x y : String) :
    y ∈ insertNew l x ↔ y ∈ l ∨ y = x := by
  unfold insertNew
  by_cases h : x ∈ l
  · simp only [if_pos h]
    constructor
    · exact Or.inl
    · rintro (hy | rfl)
      · exact hy
      · exact h
  · simp [if_neg h]

/-- Membership in the set after a bulk update. -/
theorem mem_updateSet (l xs : List String) (y : String) :
    y ∈ updateSet l xs ↔ y ∈ l ∨ y ∈ xs := by
  induction xs generalizing l with
  | nil => simp [updateSet]
  | cons x rest ih =>
    show y ∈ updateSet (insertNew l x) rest ↔ _
    rw [ih, mem_insertNew]
    simp only [List.mem_cons]
    tauto

/-- A single insert preserves freedom from duplicates. -/
theorem nodup_insertNew (l : List String) (x : String) (h : l.Nodup) :
    (insertNew l x).Nodup := by
  unfold insertNew
  split
  · exact h
  · rename_i hx
    exact h.append (List.nodup_singleton x) (by simpa [List.disjoint_singleton] using hx)

/-- A bulk update preserves freedom from duplicates. -/
theorem nodup_updateSet (l xs : List String) (h : l.Nodup) :
    (updateSet l xs).Nodup := by
  induction xs generalizing l with
  | nil => exact h
  | cons x rest ih => exact ih (insertNew l x) (nodup_insertNew l x h)

/-- The child loop of the index branch preserves freedom from duplicates. -/
theorem nodup_processChildren (env : Env) (children : List String) (urls : List String)
    (h : urls.Nodup) : (processChildren env urls children).1.Nodup := by
  induction children generalizing urls with
  | nil => exact h
  | cons child rest ih =>
    simp only [processChildren]
    split
    · split
      · exact h
      · exact ih _ (nodup_updateSet _ _ h)
    · exact ih _ h

/-- Per-document processing preserves freedom from duplicates. -/
theorem nodup_processSitemap (env : Env) (urls : List String) (su : String)
    (h : urls.Nodup) : (processSitemap env urls su).1.Nodup := by
  unfold processSitemap
  split
  · exact h
  · exact nodup_processChildren env _ urls h
  · exact nodup_updateSet _ _ h

/-- The accumulated url set of the fold over sitemap documents has no duplicates. -/
theorem nodup_sitemapFold (env : Env) (sus : List String) (acc : List String × List Event)
    (h : acc.1.Nodup) : (sitemapFold env acc sus).1.Nodup := by
  induction sus generalizing acc with
  | nil => exact h
  | cons su rest ih => exact ih _ (nodup_processSitemap env acc.1 su h)

/-- When no probe answers 200, get_all_sitemaps returns the empty list. -/
theorem get_all_sitemaps_empty (env : Env)
    (h : ∀ sm ∈ potential_sitemaps, env.probe (env.source_url ++ sm) ≠ .ok 200) :
    get_all_sitemaps env = [] := by
  unfold get_all_sitemaps
  generalize hl : potential_sitemaps = l at h
  suffices hgen : ∀ (l2 : List String) (acc : List String),
      (∀ sm ∈ l2, env.probe (env.source_url ++ sm) ≠ .ok 200) →
      l2.foldl (fun acc sitemap =>
        match env.probe (env.source_url ++ sitemap) with
        | .ok status => if status = 200 then acc ++ [env.source_url ++ sitemap] else acc
        | .error _ => acc) acc = acc by
    exact hgen l [] h
  intro l2
  induction l2 with
  | nil => intro acc _; rfl
  | cons sm rest ih =>
    intro acc hall
    simp only [List.foldl_cons]
    have hsm := hall sm (List.mem_cons_self sm rest)
    have hrest := fun x hx => hall x (List.mem_cons_of_mem sm hx)
    cases hp : env.probe (env.source_url ++ sm) with
    | error e => simp only [hp]; exact ih acc hrest
    | ok status =>
      simp only [hp]
      have hne : status ≠ 200 := by
        intro rfl2
        exact hsm (by rw [hp, rfl2])
      rw [if_neg hne]
      exact ih acc hrest

/-- C8: the sitemap reader output is always duplicate-free and contains only
content-like urls; when no index document is reachable it is the empty list (not an
error); a fetch or parse failure of one document leaves the accumulated set untouched
(the fold then continues with the remaining documents); and in the parametric
scenario with docs L1, a failing doc, and L2, the output contains exactly the
content-like urls of L1 and L2, deduplicated, so it is idempotent under repeated
duplicate loc entries within and across documents. -/
theorem C8_sitemap_discovery :
    (∀ env : Env, (get_sitemap_urls env).1.Nodup)
    ∧ (∀ (env : Env) (u : String), u ∈ (get_sitemap_urls env).1 → isPostUrl u = true)
    ∧ (∀ env : Env,
        (∀ sm ∈ potential_sitemaps, env.probe (env.source_url ++ sm) ≠ .ok 200) →
        (get_sitemap_urls env).1 = [])
    ∧ (∀ (env : Env) (urls : List String) (su : String),
        env.topDoc su = .error () → (processSitemap env urls su).1 = urls)
    ∧ (∀ (L1 L2 : List String) (u : String),
        u ∈ (get_sitemap_urls (mkTwoDocEnv L1 L2)).1 ↔
          ((u ∈ L1 ∨ u ∈ L2) ∧ isPostUrl u = true)) := by
  refine ⟨?_, ?_, ?_, ?_, ?_⟩
  · intro env
    unfold get_sitemap_urls
    split
    · simp
    · exact (nodup_sitemapFold env _ ([], []) List.nodup_nil).filter _
  · intro env u hu
    unfold get_sitemap_urls at hu
    split at hu
    · simp at hu
    · exact (List.mem_filter.mp hu).2

  · intro env h
    unfold get_sitemap_urls
    rw [get_all_sitemaps_empty env h]
    simp
  · intro env urls su h
    simp [processSitemap, h]
  · intro L1 L2 u
    have hred : (get_sitemap_urls (mkTwoDocEnv L1 L2)).1 =
        (updateSet (updateSet [] L1) L2).filter isPostUrl := rfl
    rw [hred, List.mem_filter, mem_updateSet, mem_updateSet]
    simp

/-- Witness for C8: in the all-failing environment the output is empty, and in the
two-document scenario a blog url occurring in both documents appears in the output. -/
theorem C8_sitemap_discovery_witness :
    (get_sitemap_urls noEnv).1 = []
    ∧ "http://a/blog/x" ∈
        (get_sitemap_urls (mkTwoDocEnv ["http://a/blog/x", "http://a/about"]
          ["http://a/blog/x"])).1 := by
  constructor
  · exact C8_sitemap_discovery.2.2.1 noEnv (by intro sm _ h; cases h)
  · exact (C8_sitemap_discovery.2.2.2.2 ["http://a/blog/x", "http://a/about"]
      ["http://a/blog/x"] "http://a/blog/x").mpr (by decide)

/-- When pages page, page+1, ..., page+n-1 answer 200 with nonempty bodies and page+n
raises, the pagination loop returns exactly the accumulated chunks in order, with one
page request and one sleep per successful page and a final page request and warning. -/
theorem apiLoop_partial (env : Env) (chunk : Nat → List Post) :
    ∀ (n page fuel : Nat), n < fuel →
    (∀ i, i < n → env.pageResp (page + i) = .ok (200, chunk (page + i)) ∧ chunk (page + i) ≠ []) →
    env.pageResp (page + n) = .error () →
    apiLoop env fuel page =
      (((List.range n).map (fun i => chunk (page + i))).flatten,
       ((List.range n).map (fun i =>
          [Event.apiPageRequest (page + i) 100, Event.sleep 1])).flatten ++
         [Event.apiPageRequest (page + n) 100, Event.warn "Error fetching page"]) := by
  intro n
  induction n with
  | zero =>
    intro page fuel hf h herr
    cases fuel with
    | zero => omega
    | succ f =>
      rw [Nat.add_zero] at herr
      simp [apiLoop, herr]
  | succ n ih =>
    intro page fuel hf h herr
    cases fuel with
    | zero => omega
    | succ f =>
      have h0 := h 0 (Nat.succ_pos n)
      rw [Nat.add_zero] at h0
      have hrec := ih (page + 1) f (by omega)
        (fun i hi => by
          have hh := h (i + 1) (by omega)
          have he : page + (i + 1) = page + 1 + i := by omega
          rw [he] at hh
          exact hh)
        (by
          have he : page + (n + 1) = page + 1 + n := by omega
          rw [he] at herr
          exact herr)
      have h200a : ¬(200 = 400) := by omega
      have h200b : ¬(400 ≤ 200) := by omega
      simp only [apiLoop, h0.1]
      rw [if_neg h200a, if_neg h200b, if_neg h0.2, hrec]
      rw [List.range_succ_eq_map]
      simp only [List.map_cons, List.map_map, List.flatten_cons, Nat.add_zero,
        List.cons_append, List.append_assoc, List.nil_append]
      rw [Prod.mk.injEq]
      refine ⟨?_, ?_⟩
      · congr 1
        congr 1
        apply List.map_congr_left
        intro i _
        simp only [Function.comp_apply]
        congr 1
        omega
      · congr 1
        congr 1
        congr 1
        · congr 1
          apply List.map_congr_left
          intro i _
          simp only [Function.comp_apply]
          congr 2
          omega
        · congr 2
          omega

/-- C7: when pages 1..n answer 200 with nonempty chunks and the fetch of page n+1
raises an error, get_all_posts_via_api stops enumeration at that page and returns all
items accumulated from the preceding pages, in order, as a normal partial result
rather than propagating the error; the trace shows one request per page up to the
failing one and a warning instead of a raised failure. -/
theorem C7_error_partial_result :
    ∀ (env : Env) (chunk : Nat → List Post) (n fuel : Nat), n < fuel →
    (∀ i, i < n → env.pageResp (1 + i) = .ok (200, chunk (1 + i)) ∧ chunk (1 + i) ≠ []) →
    env.pageResp (1 + n) = .error () →
    (get_all_posts_via_api env fuel).1 =
      ((List.range n).map (fun i => chunk (1 + i))).flatten
    ∧ (get_all_posts_via_api env fuel).2 =
        .apiEnum :: (((List.range n).map (fun i =>
          [Event.apiPageRequest (1 + i) 100, Event.sleep 1])).flatten ++
          [Event.apiPageRequest (1 + n) 100, Event.warn "Error fetching page"]) := by
  intro env chunk n fuel hf h herr
  have hp := apiLoop_partial env chunk n 1 fuel hf h herr
  unfold get_all_posts_via_api
  rw [hp]
  exact ⟨rfl, rfl⟩

/-- Witness for C7: with one good page and a failing second page, the enumerator
returns the first page as a partial result. -/
theorem C7_error_partial_result_witness :
    (get_all_posts_via_api errPageEnv 3).1 = [samplePost 0] := by
  have h := C7_error_partial_result errPageEnv (fun _ => [samplePost 0]) 1 3 (by omega)
    (fun i hi => by
      interval_cases i
      exact ⟨rfl, by simp⟩)
    rfl
  simpa using h.1

/-- Conjunction splitting for list-wide Boolean predicates, left component. -/
theorem all_and_left {l : List Event} {p q : Event → Bool}
    (h : l.all (fun e => p e && q e) = true) : l.all p = true := by
  rw [List.all_eq_true] at *
  intro x hx
  exact (Bool.and_eq_true _ _ |>.mp (h x hx)).1

/-- Conjunction splitting for list-wide Boolean predicates, right component. -/
theorem all_and_right {l : List Event} {p q : Event → Bool}
    (h : l.all (fun e => p e && q e) = true) : l.all q = true := by
  rw [List.all_eq_true] at *
  intro x hx
  exact (Bool.and_eq_true _ _ |>.mp (h x hx)).2

/-- A trace without markers has no enumerator invocation events. -/
theorem all_nonMarker_filter_apiEnum (l : List Event) (h : l.all nonMarker = true) :
    l.filter isApiEnum = [] := by
  rw [List.filter_eq_nil_iff]
  intro a ha
  have := List.all_eq_true.mp h a ha
  cases a <;> simp_all [nonMarker, isApiEnum]

/-- A trace without markers has no resolution call events. -/
theorem all_nonMarker_filterMap_resolve (l : List Event) (h : l.all nonMarker = true) :
    l.filterMap resolveTarget = [] := by
  rw [List.filterMap_eq_nil_iff]
  intro a ha
  have := List.all_eq_true.mp h a ha
  cases a <;> simp_all [nonMarker, resolveTarget]

/-- A trace of nonMedia events has no media operations. -/
theorem all_nonMedia_filter_media (l : List Event) (h : l.all nonMedia = true) :
    l.filter isMediaOp = [] := by
  rw [List.filter_eq_nil_iff]
  intro a ha
  have := List.all_eq_true.mp h a ha
  cases a <;> simp_all [nonMedia, isMediaOp]

/-- A trace of nonMedia events contains no media link event. -/
theorem not_mem_of_all_nonMedia {l : List Event} (h : l.all nonMedia = true)
    (pid mid : Nat) : Event.linkMedia pid mid ∉ l := fun hm => by
  have := List.all_eq_true.mp h _ hm
  simp [nonMedia] at this

/-- get_media emits no markers. -/
theorem get_media_nonMarker (env : Env) (u : String) :
    (get_media env u).2.all nonMarker = true := by
  unfold get_media
  split <;> rfl

/-- upload_media emits no markers. -/
theorem upload_media_nonMarker (env : Env) (c : Option (List Nat)) (f : String) :
    (upload_media env c f).2.all nonMarker = true := by
  unfold upload_media
  repeat' split
  all_goals rfl

/-- set_featured_image emits no markers. -/
theorem set_featured_image_nonMarker (env : Env) (pid mid : Nat) :
    (set_featured_image env pid mid).2.all nonMarker = true := by
  unfold set_featured_image
  split <;> rfl

/-- The effective featured-image handler emits no markers. -/
theorem handle_nonMarker (env : Env) (p : Post) (pid : Nat) :
    (handle_featured_image env p pid).all nonMarker = true := by
  unfold handle_featured_image
  dsimp only
  repeat' split
  all_goals first
    | rfl
    | simp [List.all_append, nonMarker, get_media_nonMarker, upload_media_nonMarker,
        set_featured_image_nonMarker]

/-- The trace of a resolution starts with its own resolution call and continues with
plain requests and log messages: no other marker and no media operation. -/
theorem getPost_shape (env : Env) (url : String) :
    ∃ t, (get_post_by_url env url).2 = .resolveUrl url :: t
      ∧ t.all (fun e => nonMarker e && nonMedia e) = true := by
  unfold get_post_by_url
  dsimp only
  repeat' split
  all_goals exact ⟨_, rfl, rfl⟩

/-- create_post emits neither markers nor media operations. -/
theorem create_post_kinds (env : Env) (p : Post) :
    (create_post env p).2.all (fun e => nonMarker e && nonMedia e) = true := by
  cases h : env.createResp (newPostPayload p)
  all_goals simp [create_post, h, nonMarker, nonMedia]

/-- An API-mode item emits no markers. -/
theorem migrate_api_item_nonMarker (env : Env) (p : Post) :
    (migrate_api_item env p).2.all nonMarker = true := by
  unfold migrate_api_item
  dsimp only
  repeat' split
  all_goals simp [List.all_append, nonMarker, all_and_left (create_post_kinds env p),
    handle_nonMarker]

/-- A sitemap-mode item emits exactly one resolution call, its own, first. -/
theorem migrate_sitemap_item_shape (env : Env) (url : String) :
    ∃ t, (migrate_sitemap_item env url).2 = .resolveUrl url :: t ∧ t.all nonMarker = true := by
  obtain ⟨t0, ht0, hall⟩ := getPost_shape env url
  have hm : t0.all nonMarker = true := all_and_left hall
  unfold migrate_sitemap_item
  dsimp only
  repeat' split
  all_goals rw [ht0, List.cons_append]
  · exact ⟨_, rfl, by simp [List.all_append, hm, nonMarker]⟩
  · exact ⟨_, rfl, by simp [List.all_append, hm, nonMarker,
      all_and_left (create_post_kinds env _)]⟩
  · exact ⟨_, rfl, by simp [List.all_append, hm, nonMarker,
      all_and_left (create_post_kinds env _), handle_nonMarker]⟩

/-- The pagination loop emits no markers of its own. -/
theorem apiLoop_nonMarker (env : Env) :
    ∀ (fuel page : Nat), (apiLoop env fuel page).2.all nonMarker = true := by
  intro fuel
  induction fuel with
  | zero => intro page; rfl
  | succ f ih =>
    intro page
    unfold apiLoop
    dsimp only
    repeat' split
    all_goals simp [nonMarker, ih]

/-- The enumerator trace is its marker followed by the loop trace. -/
theorem get_all_posts_events (env : Env) (fuel : Nat) :
    (get_all_posts_via_api env fuel).2 = .apiEnum :: (apiLoop env fuel 1).2 := rfl

/-- The child loop of the index branch emits no markers. -/
theorem processChildren_nonMarker (env : Env) :
    ∀ (cs urls : List String), (processChildren env urls cs).2.1.all nonMarker = true := by
  intro cs
  induction cs with
  | nil => intro urls; rfl
  | cons c rest ih =>
    intro urls
    unfold processChildren
    dsimp only
    repeat' split
    all_goals simp [nonMarker, ih]

/-- Per-document sitemap processing emits no markers. -/
theorem processSitemap_nonMarker (env : Env) (urls : List String) (su : String) :
    (processSitemap env urls su).2.all nonMarker = true := by
  unfold processSitemap
  dsimp only
  repeat' split
  all_goals simp [List.all_append, nonMarker, processChildren_nonMarker]

/-- The fold over sitemap documents emits no markers beyond its accumulator. -/
theorem sitemapFold_nonMarker (env : Env) :
    ∀ (sus : List String) (acc : List String × List Event), acc.2.all nonMarker = true →
      (sitemapFold env acc sus).2.all nonMarker = true := by
  intro sus
  induction sus with
  | nil => intro acc h; exact h
  | cons su rest ih =>
    intro acc h
    exact ih _ (by simp [List.all_append, h, processSitemap_nonMarker])

/-- Sitemap discovery emits no markers. -/
theorem get_sitemap_urls_nonMarker (env : Env) :
    (get_sitemap_urls env).2.all nonMarker = true := by
  unfold get_sitemap_urls
  split
  · rfl
  · exact sitemapFold_nonMarker env _ ([], []) rfl

/-- The sitemap-mode transfer loop resolves exactly the given urls in order and never
invokes the enumerator. -/
theorem flatMap_sitemap_items (env : Env) (urls : List String) :
    ((urls.flatMap (fun u => (migrate_sitemap_item env u).2)).filterMap resolveTarget = urls)
    ∧ ((urls.flatMap (fun u => (migrate_sitemap_item env u).2)).filter isApiEnum = []) := by
  induction urls with
  | nil => simp
  | cons u rest ih =>
    obtain ⟨t, ht, hall⟩ := migrate_sitemap_item_shape env u
    simp only [List.flatMap_cons, List.filterMap_append, List.filter_append, ht]
    constructor
    · rw [List.filterMap_cons]
      simp only [resolveTarget]
      rw [all_nonMarker_filterMap_resolve t hall, ih.1]
      rfl
    · rw [List.filter_cons]
      simp only [isApiEnum]
      rw [if_neg (by simp), all_nonMarker_filter_apiEnum t hall, ih.2]
      rfl

/-- The API-mode transfer loop emits no markers. -/
theorem flatMap_api_items_nonMarker (env : Env) (ps : List Post) :
    (ps.flatMap (fun p => (migrate_api_item env p).2)).all nonMarker = true := by
  induction ps with
  | nil => rfl
  | cons p rest ih => simp [List.flatMap_cons, List.all_append, migrate_api_item_nonMarker, ih]

/-- Every link event of the effective featured-image handler carries the destination
id the handler was given. -/
theorem handle_link_id (env : Env) (p : Post) (pid pid2 mid : Nat)
    (h : Event.linkMedia pid2 mid ∈ handle_featured_image env p pid) : pid2 = pid := by
  unfold handle_featured_image get_media upload_media set_featured_image at h
  dsimp only at h
  repeat' split at h
  all_goals simp_all

/-- C1: in every run, a nonempty sitemap url list makes migrate_content process
exactly that list, resolving each url through get_post_by_url in order, and never
invoke get_all_posts_via_api; an empty list makes it invoke get_all_posts_via_api
exactly once and perform no url resolution: the two strategies are mutually
exclusive within one run. -/
theorem C1_discovery_strategy_exclusive :
    ∀ (env : Env) (fuel : Nat),
      ((get_sitemap_urls env).1 ≠ [] →
        (migrate_content env fuel).filter isApiEnum = []
        ∧ (migrate_content env fuel).filterMap resolveTarget = (get_sitemap_urls env).1)
      ∧ ((get_sitemap_urls env).1 = [] →
        (migrate_content env fuel).filter isApiEnum = [.apiEnum]
        ∧ (migrate_content env fuel).filterMap resolveTarget = []) := by
  intro env fuel
  constructor
  · intro hne
    unfold migrate_content
    rw [if_pos hne]
    rw [List.filter_append, List.filterMap_append]
    rw [all_nonMarker_filter_apiEnum _ (get_sitemap_urls_nonMarker env),
        all_nonMarker_filterMap_resolve _ (get_sitemap_urls_nonMarker env)]
    exact ⟨by rw [(flatMap_sitemap_items env _).2]; rfl,
           by rw [(flatMap_sitemap_items env _).1]; rfl⟩
  · intro hmt
    unfold migrate_content
    rw [if_neg (by simp [hmt])]
    by_cases ha : (get_all_posts_via_api env fuel).1 = []
    · rw [if_pos ha]
      rw [List.filter_append, List.filterMap_append]
      rw [all_nonMarker_filter_apiEnum _ (get_sitemap_urls_nonMarker env),
          all_nonMarker_filterMap_resolve _ (get_sitemap_urls_nonMarker env),
          get_all_posts_events]
      rw [List.filter_cons, List.filterMap_cons]
      simp only [isApiEnum, resolveTarget, if_pos]
      rw [all_nonMarker_filter_apiEnum _ (apiLoop_nonMarker env fuel 1),
          all_nonMarker_filterMap_resolve _ (apiLoop_nonMarker env fuel 1)]
      exact ⟨rfl, rfl⟩
    · rw [if_neg ha]
      rw [List.filter_append, List.filter_append, List.filterMap_append,
          List.filterMap_append]
      rw [all_nonMarker_filter_apiEnum _ (get_sitemap_urls_nonMarker env),
          all_nonMarker_filterMap_resolve _ (get_sitemap_urls_nonMarker env),
          all_nonMarker_filter_apiEnum _ (flatMap_api_items_nonMarker env _),
          all_nonMarker_filterMap_resolve _ (flatMap_api_items_nonMarker env _),
          get_all_posts_events]
      rw [List.filter_cons, List.filterMap_cons]
      simp only [isApiEnum, resolveTarget, if_pos]
      rw [all_nonMarker_filter_apiEnum _ (apiLoop_nonMarker env fuel 1),
          all_nonMarker_filterMap_resolve _ (apiLoop_nonMarker env fuel 1)]
      exact ⟨rfl, rfl⟩

/-- Witness for C1: a sitemap-bearing environment resolves exactly its url list and
never invokes the enumerator, and the all-failing environment invokes the enumerator
exactly once. -/
theorem C1_discovery_strategy_exclusive_witness :
    (get_sitemap_urls (mkTwoDocEnv ["http://a/blog/x"] [])).1 ≠ []
    ∧ (migrate_content (mkTwoDocEnv ["http://a/blog/x"] []) 1).filter isApiEnum = []
    ∧ (migrate_content (mkTwoDocEnv ["http://a/blog/x"] []) 1).filterMap resolveTarget =
        (get_sitemap_urls (mkTwoDocEnv ["http://a/blog/x"] [])).1
    ∧ (get_sitemap_urls noEnv).1 = []
    ∧ (migrate_content noEnv 1).filter isApiEnum = [.apiEnum] :=
  ⟨by decide,
   ((C1_discovery_strategy_exclusive (mkTwoDocEnv ["http://a/blog/x"] []) 1).1 (by decide)).1,
   ((C1_discovery_strategy_exclusive (mkTwoDocEnv ["http://a/blog/x"] []) 1).1 (by decide)).2,
   by decide,
   ((C1_discovery_strategy_exclusive noEnv 1).2 (by decide)).1⟩

/-- C2: in both transfer modes, an item whose creation fails performs no media
download, upload, or link operation at all, and every media link event that does
occur carries exactly the destination id returned by that item preceding successful
create_post. -/
theorem C2_no_media_before_create :
    ∀ (env : Env) (post : Post) (url : String),
      (env.createResp (newPostPayload post) = .error () →
        (migrate_api_item env post).2.filter isMediaOp = []
        ∧ ((get_post_by_url env url).1 = some post →
            (migrate_sitemap_item env url).2.filter isMediaOp = []))
      ∧ (∀ pid mid, Event.linkMedia pid mid ∈ (migrate_api_item env post).2 →
          env.createResp (newPostPayload post) = .ok pid)
      ∧ (∀ pid mid, Event.linkMedia pid mid ∈ (migrate_sitemap_item env url).2 →
          ∃ post2, (get_post_by_url env url).1 = some post2
            ∧ env.createResp (newPostPayload post2) = .ok pid) := by
  intro env post url
  obtain ⟨t, ht, hall⟩ := getPost_shape env url
  have hmedia := all_nonMedia_filter_media t (all_and_right hall)
  have hnolink := fun pid mid => not_mem_of_all_nonMedia (all_and_right hall) pid mid
  refine ⟨?_, ?_, ?_⟩
  · intro hErr
    constructor
    · simp [migrate_api_item, create_post, hErr, isMediaOp]
    · intro hres
      simp [migrate_sitemap_item, hres, create_post, hErr, ht, List.filter_append,
        hmedia, isMediaOp]
  · intro pid mid hmem
    cases hc : env.createResp (newPostPayload post) with
    | error e =>
      simp [migrate_api_item, create_post, hc] at hmem
    | ok pid0 =>
      simp only [migrate_api_item, create_post] at hmem
      rw [hc] at hmem
      simp at hmem
      rw [handle_link_id env post pid0 pid mid hmem]
  · intro pid mid hmem
    cases hres : (get_post_by_url env url).1 with
    | none =>
      simp only [migrate_sitemap_item] at hmem
      rw [hres, ht] at hmem
      simp at hmem
      exact absurd hmem (by simpa using hnolink pid mid)
    | some post2 =>
      cases hc : env.createResp (newPostPayload post2) with
      | error e =>
        simp only [migrate_sitemap_item] at hmem
        rw [hres] at hmem
        simp only [create_post] at hmem
        rw [hc, ht] at hmem
        simp at hmem
        exact absurd hmem (by simpa using hnolink pid mid)
      | ok pid0 =>
        refine ⟨post2, rfl, ?_⟩
        simp only [migrate_sitemap_item] at hmem
        rw [hres] at hmem
        simp only [create_post] at hmem
        rw [hc, ht] at hmem
        simp at hmem
        rcases hmem with h1 | h1
        · exact absurd h1 (by simpa using hnolink pid mid)
        · rw [handle_link_id env post2 pid0 pid mid h1]
          exact hc

/-- Witness for C2: with an always-failing create the api-mode item performs no media
operation, and on the happy path the link event id is the created id. -/
theorem C2_no_media_before_create_witness :
    (migrate_api_item noEnv (samplePost 1)).2.filter isMediaOp = []
    ∧ linkEnv.createResp (newPostPayload postWithMedia) = .ok 42 :=
  ⟨((C2_no_media_before_create noEnv (samplePost 1) "u").1 (by rfl)).1,
   (C2_no_media_before_create linkEnv postWithMedia "u").2.1 42 77 (by decide)⟩

/-- C3: once an item creation has succeeded with a destination id, the item outcome
is that id being migrated whatever the media sub-pipeline does (every failure is
caught inside the handler), and when the featured-media url is unreachable (get_media
yields None) no media link request is ever attempted. -/
theorem C3_media_failure_isolated :
    ∀ (env : Env) (post : Post) (pid : Nat) (url : String),
      (env.createResp (newPostPayload post) = .ok pid →
        (migrate_api_item env post).1 = .migrated pid)
      ∧ (mediaUrlOf post = some url → env.mediaResp url = .error () →
          (handle_featured_image env post pid).filter isLink = []) := by
  intro env post pid url
  constructor
  · intro hok
    simp [migrate_api_item, create_post, hok]
  · intro hurl herr
    unfold mediaUrlOf at hurl
    repeat' split at hurl
    all_goals try cases hurl
    all_goals simp_all [handle_featured_image, get_media, upload_media, truthyBytes, isLink]

/-- Witness for C3: a successful create with an unreachable media url leaves the item
migrated with the created id and attempts no link request. -/
theorem C3_media_failure_isolated_witness :
    (migrate_api_item createOkEnv postWithMedia).1 = .migrated 42
    ∧ (handle_featured_image createOkEnv postWithMedia 42).filter isLink = [] :=
  ⟨(C3_media_failure_isolated createOkEnv postWithMedia 42 "http://a/img.png").1 (by rfl),
   (C3_media_failure_isolated createOkEnv postWithMedia 42 "http://a/img.png").2
     (by rfl) (by rfl)⟩

end WPM
